import Mathlib

/-!
Verification of the multi-source-energy-meter runtime core.

Shallow embedding of the four source modules:
  config_manager.py  (ConfigManager: dict-backed config store with listeners),
  data_source.py     (DataSource: threaded reading generator),
  mqtt_manager.py    (MqttManager: message-bus client wrapper),
  app.py             (apply_action and the coordinator wiring).

Python dicts are modelled as association lists; object identity and
in-place mutation (needed for the snapshot-vs-alias claims) are modelled
with a small explicit heap of dict cells.  Numbers are rationals, with
the Python banker rounding of `round(x, 2)` made explicit.
-/

namespace EnergyMeter

/-- A JSON-style configuration value, as stored in the config dict. -/
inductive Value where
  | num (q : ℚ)
  | bool (b : Bool)
  | str (s : String)
  | null
deriving DecidableEq, Repr

/-- Python truthiness of a value, used by `if not host:` and
`config.get("mqtt_publish_enabled", False)` style checks. -/
def pyTruthy : Value → Bool
  | .num q => q ≠ 0
  | .bool b => b
  | .str s => s ≠ ""
  | .null => false

/-- A Python dict, as an association list keyed by strings. -/
abbrev Dict := List (String × Value)

/-- Lookup in a dict: the first binding of the key wins. -/
def dictGet : Dict → String → Option Value
  | [], _ => none
  | (k', v) :: rest, k => if k' = k then some v else dictGet rest k

/-- In-place assignment `d[k] = v`: overwrite the binding if present,
append it otherwise. -/
def dictSet : Dict → String → Value → Dict
  | [], k, v => [(k, v)]
  | (k', v') :: rest, k, v =>
    if k' = k then (k, v) :: rest else (k', v') :: dictSet rest k v

/-- Python `d.update(updates)`: assign each key of `updates` in order. -/
def dictUpdate (d : Dict) (updates : Dict) : Dict :=
  updates.foldl (fun acc kv => dictSet acc kv.1 kv.2) d

/-- Membership of a key in the update payload. -/
def dictHasKey (d : Dict) (k : String) : Bool :=
  d.any (fun kv => kv.1 = k)

theorem dictGet_dictSet_same (d : Dict) (k : String) (v : Value) :
    dictGet (dictSet d k v) k = some v := by
  induction d with
  | nil => simp [dictSet, dictGet]
  | cons hd tl ih =>
    by_cases h : hd.1 = k
    · simp [dictSet, dictGet, h]
    · simp [dictSet, dictGet, h, ih]

theorem dictGet_dictSet_other (d : Dict) (k k' : String) (v : Value)
    (hne : k ≠ k') : dictGet (dictSet d k v) k' = dictGet d k' := by
  induction d with
  | nil => simp [dictSet, dictGet, hne]
  | cons hd tl ih =>
    by_cases h : hd.1 = k
    · simp [dictSet, dictGet, h, hne]
    · simp [dictSet, dictGet, h, ih]

theorem dictGet_dictUpdate_not_mem (d u : Dict) (k : String)
    (h : dictHasKey u k = false) :
    dictGet (dictUpdate d u) k = dictGet d k := by
  induction u generalizing d with
  | nil => rfl
  | cons hd tl ih =>
    simp [dictHasKey, List.any_cons] at h
    have : dictUpdate d (hd :: tl) = dictUpdate (dictSet d hd.1 hd.2) tl := rfl
    rw [this, ih _ (by simp [dictHasKey]; exact h.2),
      dictGet_dictSet_other _ _ _ _ h.1]

theorem dictGet_dictUpdate_singleton (d : Dict) (k : String) (v : Value) :
    dictGet (dictUpdate d [(k, v)]) k = some v := by
  simp [dictUpdate, dictGet_dictSet_same]

/-! ### A heap of dict cells

Python dicts are mutable objects passed by reference.  To state the
copy-vs-alias claims we keep the dict contents in numbered cells; a
"reference" is a cell index.  `copy()` allocates a fresh cell with equal
contents; an in-place mutation writes through a reference. -/

/-- The heap: cell `r` holds the dict `cells.get? r` (a dangling
reference reads as an empty dict and writes are dropped). -/
structure Heap where
  cells : List Dict
deriving Repr

/-- Dereference: the dict object stored at `r`. -/
def Heap.read (h : Heap) (r : Nat) : Dict :=
  (h.cells.get? r).getD []

/-- In-place mutation of the dict object at `r`. -/
def Heap.write (h : Heap) (r : Nat) (d : Dict) : Heap :=
  ⟨h.cells.set r d⟩

/-- Allocation of a fresh dict object, returning the new heap and the
fresh reference. -/
def Heap.alloc (h : Heap) (d : Dict) : Heap × Nat :=
  (⟨h.cells ++ [d]⟩, h.cells.length)

theorem Heap.read_write_same (h : Heap) (r : Nat) (d : Dict)
    (hr : r < h.cells.length) : (h.write r d).read r = d := by
  simp [Heap.read, Heap.write, List.getElem?_set_self', hr]

theorem Heap.read_write_other (h : Heap) (r r' : Nat) (d : Dict)
    (hne : r ≠ r') : (h.write r d).read r' = h.read r' := by
  simp [Heap.read, Heap.write, List.getElem?_set_ne hne]

theorem Heap.read_alloc_old (h : Heap) (d : Dict) (r : Nat)
    (hr : r < h.cells.length) : (h.alloc d).1.read r = h.read r := by
  simp [Heap.read, Heap.alloc, List.getElem?_append_left hr]

theorem Heap.read_alloc_new (h : Heap) (d : Dict) :
    (h.alloc d).1.read (h.alloc d).2 = d := by
  simp [Heap.read, Heap.alloc, List.getElem?_append_right (le_refl _)]

/-! ### ConfigManager (config_manager.py)

The manager holds a reference to its internal `_config` dict.  Listener
callbacks are modelled as heap transformers that receive the reference
the manager hands them; `update` passes `self._config` itself (not a
copy) to every listener, exactly as in the source. -/

/-- The ConfigManager object: the reference to its internal config
dict.  The lock and logger play no role in the sequential claims. -/
structure ConfigManager where
  configRef : Nat
deriving Repr

/-- `get(key, default)`: read the internal dict under the lock. -/
def ConfigManager.get (cm : ConfigManager) (h : Heap) (k : String)
    (default : Value) : Value :=
  (dictGet (h.read cm.configRef) k).getD default

/-- `all()`: return `self._config.copy()` — a freshly allocated cell
holding the same contents. -/
def ConfigManager.all (cm : ConfigManager) (h : Heap) : Heap × Nat :=
  h.alloc (h.read cm.configRef)

/-- `update(updates)`: merge `updates` into the internal dict with
`self._config.update(updates)` (persisting to file has no effect on the
in-memory state modelled here), then invoke every listener with
`self._config` — the internal reference itself. -/
def ConfigManager.update (cm : ConfigManager) (h : Heap) (updates : Dict)
    (listeners : List (Heap → Nat → Heap)) : Heap :=
  let h1 := h.write cm.configRef (dictUpdate (h.read cm.configRef) updates)
  listeners.foldl (fun hh f => f hh cm.configRef) h1

/-! ### Rounding (Python round(x, 2))

Python round uses round-half-to-even.  `roundHalfEven` is that rule on
rationals; `round2` is `round(x, 2)`. -/

/-- Round a rational to the nearest integer, ties to the even
neighbour (the Python built-in round). -/
def roundHalfEven (q : ℚ) : ℤ :=
  let f := q - ⌊q⌋
  if f < 1/2 then ⌊q⌋
  else if 1/2 < f then ⌊q⌋ + 1
  else if ⌊q⌋ % 2 = 0 then ⌊q⌋ else ⌊q⌋ + 1

/-- Python round(x, 2): round at two decimal places. -/
def round2 (q : ℚ) : ℚ :=
  (roundHalfEven (100 * q) : ℚ) / 100

theorem floor_le_roundHalfEven (q : ℚ) : ⌊q⌋ ≤ roundHalfEven q := by
  unfold roundHalfEven
  dsimp only
  split
  · exact le_refl _
  · split
    · omega
    · split
      · exact le_refl _
      · omega

theorem roundHalfEven_le_of_le (q : ℚ) (n : ℤ) (h : q ≤ (n : ℚ)) :
    roundHalfEven q ≤ n := by
  have hfl : ⌊q⌋ ≤ n := by
    have := Int.floor_le_floor h
    simpa using this
  have hsucc : ¬(q - ⌊q⌋ < 1/2) → ⌊q⌋ + 1 ≤ n := by
    intro hf
    have hpos : (⌊q⌋ : ℚ) < q := by
      have : (1 : ℚ)/2 ≤ q - ⌊q⌋ := le_of_not_lt hf
      linarith
    have : (⌊q⌋ : ℚ) < (n : ℚ) := lt_of_lt_of_le hpos h
    have : ⌊q⌋ < n := by exact_mod_cast this
    omega
  unfold roundHalfEven
  dsimp only
  split
  · exact hfl
  · next hf =>
    split
    · exact hsucc hf
    · split
      · exact hfl
      · exact hsucc hf

theorem le_roundHalfEven_of_le (q : ℚ) (n : ℤ) (h : (n : ℚ) ≤ q) :
    n ≤ roundHalfEven q := by
  have : n ≤ ⌊q⌋ := Int.le_floor.mpr h
  exact le_trans this (floor_le_roundHalfEven q)

theorem round2_le (q : ℚ) (n : ℤ) (h : q ≤ (n : ℚ) / 100) :
    round2 q ≤ (n : ℚ) / 100 := by
  have h100 : 100 * q ≤ (n : ℚ) := by linarith
  have := roundHalfEven_le_of_le (100 * q) n h100
  have hc : (roundHalfEven (100 * q) : ℚ) ≤ (n : ℚ) := by exact_mod_cast this
  unfold round2
  linarith

theorem le_round2 (q : ℚ) (n : ℤ) (h : (n : ℚ) / 100 ≤ q) :
    (n : ℚ) / 100 ≤ round2 q := by
  have h100 : (n : ℚ) ≤ 100 * q := by linarith
  have := le_roundHalfEven_of_le (100 * q) n h100
  have hc : (n : ℚ) ≤ (roundHalfEven (100 * q) : ℚ) := by exact_mod_cast this
  unfold round2
  linarith

/-! ### DataSource (data_source.py) -/

/-- Python random.uniform(a, b) = a + (b - a) * random(), where
random() draws from [0, 1).  It is defined for every pair of bounds,
also when a > b. -/
def uniform (a b u : ℚ) : ℚ := a + (b - a) * u

/-- The DataSource object state.  The delivery callback is modelled by
whether one is installed (callback is not None in the source). -/
structure DataSource where
  name : String
  timestamp : String
  voltage : ℚ
  current : ℚ
  power : ℚ
  ipAddr : String
  interval_lower_bound : ℚ
  interval_upper_bound : ℚ
  running : Bool
  hasCallback : Bool
  threadStarted : Bool
deriving DecidableEq, Repr

/-- The constructor of DataSource: running starts True, the thread is
not yet started, readings are zeroed. -/
def DataSource.init (name : String) (lb ub : ℚ) (hasCallback : Bool)
    (ip : String) : DataSource :=
  { name := name
    timestamp := ""
    voltage := 0
    current := 0
    power := 0
    ipAddr := ip
    interval_lower_bound := lb
    interval_upper_bound := ub
    running := true
    hasCallback := hasCallback
    threadStarted := false }

/-- generate_readings, with the two unit-interval samples of
random.uniform made explicit inputs: voltage = round(uniform(210, 240), 2),
current = round(uniform(0.1, 10.0), 2), power = round(voltage * current, 2),
timestamp set to the current time. -/
def DataSource.generate_readings (ds : DataSource) (uv ui : ℚ)
    (now : String) : DataSource :=
  let v := round2 (uniform 210 240 uv)
  let c := round2 (uniform (1/10) 10 ui)
  { ds with
    voltage := v
    current := c
    power := round2 (v * c)
    timestamp := now }

/-- pause(): set running to False; nothing else changes. -/
def DataSource.pause (ds : DataSource) : DataSource :=
  { ds with running := false }

/-- resume(): set running to True. -/
def DataSource.resume (ds : DataSource) : DataSource :=
  { ds with running := true }

/-- stop(): set running to False; the thread and loop are not touched. -/
def DataSource.stop (ds : DataSource) : DataSource :=
  { ds with running := false }

/-- start(): spawn the loop thread once; a second call only logs a
warning.  Either way the flag ends up set. -/
def DataSource.start (ds : DataSource) : DataSource :=
  { ds with threadStarted := true }

/-- The dict payload handed to the delivery callback. -/
structure Reading where
  voltage : ℚ
  current : ℚ
  power : ℚ
  ipAddr : String
  timestamp : String
deriving DecidableEq, Repr

/-- The nondeterministic inputs of one iteration of the _run loop: the
three random draws, the clock reading, and whether the delivery
callback raises. -/
structure IterInput where
  uv : ℚ
  ui : ℚ
  us : ℚ
  now : String
  cbFails : Bool
deriving DecidableEq, Repr

/-- What one iteration of the _run loop did. -/
structure IterOutcome where
  state : DataSource
  generated : Option Reading
  delivered : Option Reading
  callbackErrorCaught : Bool
  sleepTime : ℚ
  sleepErrorCaught : Bool
deriving DecidableEq, Repr

/-- One iteration of the _run while-loop: if running, generate a
reading and hand it to the callback (callback exceptions are swallowed
by the inner try/except); then sample the sleep duration from the
current interval bounds.  A negative duration makes time.sleep raise,
which the outer try/except swallows, so the iteration always completes
and the loop always reaches its next cycle. -/
def DataSource.loopIter (ds : DataSource) (inp : IterInput) : IterOutcome :=
  let (ds1, gen, del) :=
    if ds.running then
      let d := ds.generate_readings inp.uv inp.ui inp.now
      let r : Reading :=
        ⟨d.voltage, d.current, d.power, d.ipAddr, d.timestamp⟩
      (d, some r, if d.hasCallback then some r else none)
    else (ds, none, none)
  let t := uniform ds1.interval_lower_bound ds1.interval_upper_bound inp.us
  { state := ds1
    generated := gen
    delivered := del
    callbackErrorCaught := del.isSome && inp.cbFails
    sleepTime := t
    sleepErrorCaught := decide (t < 0) }

/-- The while-True loop run over a finite trace of iteration inputs.
The loop has no exit: it consumes every input and records every
outcome. -/
def DataSource.runLoop (ds : DataSource) : List IterInput →
    DataSource × List IterOutcome
  | [] => (ds, [])
  | i :: rest =>
    let o := ds.loopIter i
    let (dsF, os) := o.state.runLoop rest
    (dsF, o :: os)

theorem loopIter_not_running (ds : DataSource) (inp : IterInput)
    (h : ds.running = false) :
    ds.loopIter inp =
      { state := ds
        generated := none
        delivered := none
        callbackErrorCaught := false
        sleepTime := uniform ds.interval_lower_bound
          ds.interval_upper_bound inp.us
        sleepErrorCaught := decide ((uniform ds.interval_lower_bound
          ds.interval_upper_bound inp.us) < 0) } := by
  simp [DataSource.loopIter, h]

theorem runLoop_paused (ds : DataSource) (ins : List IterInput)
    (h : ds.running = false) :
    (ds.runLoop ins).1 = ds ∧
      (ds.runLoop ins).2.all
        (fun o => o.generated == none && o.delivered == none) = true ∧
      (ds.runLoop ins).2.length = ins.length := by
  induction ins with
  | nil => simp [DataSource.runLoop]
  | cons i rest ih =>
    have hstep := loopIter_not_running ds i h
    simp only [DataSource.runLoop, hstep]
    refine ⟨ih.1, ?_, by simp [ih.2.2]⟩
    simp [ih.2.1]

/-! ### MqttManager (mqtt_manager.py)

The paho client object is modelled by a numeric handle; the broker side
is a world holding the set of currently live (connected) handles.  The
manager owns `self.config` (a dict) and `self.mqtt_client` (the handle
or None). -/

/-- The outbound topic PUB_TOPIC of mqtt_manager.py. -/
def PUB_TOPIC : String := "mock/energy_meter/id001/data"

/-- The MqttManager object: its config dict (by value — only reads
matter here) and the client handle. -/
structure MqttManager where
  config : Dict
  client : Option Nat
deriving DecidableEq, Repr

/-- The transport world: which client handles hold a live connection,
and the next fresh handle. -/
structure MqttWorld where
  live : List Nat
  nextId : Nat
deriving DecidableEq, Repr

/-- stopClient(): inside the lock, try to stop the loop and disconnect
the current client if any (a teardown error is caught and logged, in
which case the old connection may not have been torn down), and in the
finally block always set the handle to None.  Never raises. -/
def MqttManager.stopClient (m : MqttManager) (w : MqttWorld)
    (teardownFails : Bool) : MqttManager × MqttWorld :=
  let w1 :=
    match m.client with
    | some i => if teardownFails then w else { w with live := w.live.erase i }
    | none => w
  ({ m with client := none }, w1)

/-- startClient(): inside the lock, first stopClient(); then, if no
truthy mqtt_host is configured, log and return with no client; else
build a fresh client (fresh handle) and try to connect: on success the
handle is stored and the connection is live, on failure the exception
is caught and the handle stays None. -/
def MqttManager.startClient (m : MqttManager) (w : MqttWorld)
    (teardownFails connectOk : Bool) : MqttManager × MqttWorld :=
  let p := m.stopClient w teardownFails
  let m1 := p.1
  let w1 := p.2
  let host := (dictGet m1.config "mqtt_host").getD Value.null
  if pyTruthy host then
    let cid := w1.nextId
    if connectOk then
      ({ m1 with client := some cid },
        { live := cid :: w1.live, nextId := w1.nextId + 1 })
    else
      (m1, { w1 with nextId := w1.nextId + 1 })
  else
    (m1, w1)

/-- Liveness of a handle: client.is_connected(). -/
def isConnectedClient (w : MqttWorld) (i : Nat) : Bool :=
  w.live.contains i

/-- isConnected(): `self.mqtt_client and self.mqtt_client.is_connected()`. -/
def MqttManager.isConnected (m : MqttManager) (w : MqttWorld) : Bool :=
  match m.client with
  | none => false
  | some i => isConnectedClient w i

/-- A publish payload: a dict (serialized with json.dumps) or anything
else (serialized with str). -/
inductive Payload where
  | dict (d : Dict)
  | text (s : String)
deriving DecidableEq, Repr

/-- A model of json.dumps on a value. -/
def jsonEncodeValue : Value → String
  | .num q => toString q
  | .bool b => if b then "true" else "false"
  | .str s => "\"" ++ s ++ "\""
  | .null => "null"

/-- A model of json.dumps on a dict (the UTF-8 bytes are identified
with the text). -/
def jsonEncodeDict (d : Dict) : String :=
  "\x7b"
    ++ String.intercalate ", "
      (d.map fun kv => "\"" ++ kv.1 ++ "\": " ++ jsonEncodeValue kv.2)
    ++ "\x7d"

/-- What a safePublish call did: the publish calls that reached the
transport, whether an exception escaped to the caller, and whether the
except branch logged a swallowed failure. -/
structure PublishOutcome where
  calls : List (String × String)
  raised : Bool
  errorLogged : Bool
deriving DecidableEq, Repr

/-- safePublish(payload): return immediately unless
config.get("mqtt_publish_enabled", False) is truthy; return (with a
warning) if the handle is None or not connected; otherwise serialize
(dict payloads via json.dumps, others via str) and publish to
PUB_TOPIC.  A serialization failure (encodeFails) or a send failure
(sendFails) is caught and logged by the except branch; nothing ever
raises to the caller. -/
def MqttManager.safePublish (m : MqttManager) (w : MqttWorld)
    (p : Payload) (encodeFails sendFails : Bool) : PublishOutcome :=
  if pyTruthy ((dictGet m.config "mqtt_publish_enabled").getD
      (Value.bool false)) then
    match m.client with
    | none => { calls := [], raised := false, errorLogged := false }
    | some i =>
      if isConnectedClient w i then
        if encodeFails then
          { calls := [], raised := false, errorLogged := true }
        else
          let bytes :=
            match p with
            | .dict d => jsonEncodeDict d
            | .text s => s
          { calls := [(PUB_TOPIC, bytes)], raised := false,
            errorLogged := sendFails }
      else { calls := [], raised := false, errorLogged := false }
  else { calls := [], raised := false, errorLogged := false }

/-! ### Lock usage of the MqttManager operations

The events each public method performs on `self._lock`, read off the
source: the bodies of startClient and stopClient are wrapped in
`with self._lock`; safePublish and isConnected contain no lock
statement at all. -/

/-- An event on the shared RLock of MqttManager. -/
inductive LockEvent where
  | acquire
  | release
deriving DecidableEq, Repr

/-- Lock events of stopClient: its whole body runs under
`with self._lock`. -/
def stopClientLockTrace : List LockEvent :=
  [LockEvent.acquire, LockEvent.release]

/-- Lock events of startClient: `with self._lock` around a body that
begins by calling stopClient (the RLock is reentrant). -/
def startClientLockTrace : List LockEvent :=
  LockEvent.acquire :: (stopClientLockTrace ++ [LockEvent.release])

/-- Lock events of safePublish: the source of safePublish contains no
`with self._lock` block, so it touches the handle without the lock. -/
def safePublishLockTrace : List LockEvent := []

/-- Lock events of isConnected: the source of isConnected contains no
`with self._lock` block. -/
def isConnectedLockTrace : List LockEvent := []

/-! ### apply_action (app.py) -/

/-- A model of the Python str.upper method: upper-case each character. -/
def pyUpper (s : String) : String :=
  ⟨s.data.map Char.toUpper⟩

/-- apply_action(action, consumer, generator, source): upper-case the
action; on RESUME resume both sources and announce, on PAUSE pause
both and announce, otherwise log a warning and return — leaving both
sources untouched and emitting nothing.  The returned list holds the
safe_emit broadcast events. -/
def apply_action (action : String) (consumer generator : DataSource)
    (source : String) : DataSource × DataSource × List (String × String) :=
  let au := pyUpper action
  if au = "RESUME" then
    (consumer.resume, generator.resume,
      [("mqtt_message", "Action: " ++ au ++ " (" ++ source ++ ")")])
  else if au = "PAUSE" then
    (consumer.pause, generator.pause,
      [("mqtt_message", "Action: " ++ au ++ " (" ++ source ++ ")")])
  else
    (consumer, generator, [])

/-! ### Shared helper lemmas -/

theorem Heap.length_write (h : Heap) (r : Nat) (d : Dict) :
    (h.write r d).cells.length = h.cells.length := by
  simp [Heap.write]

theorem runLoop_length (ds : DataSource) (ins : List IterInput) :
    (ds.runLoop ins).2.length = ins.length := by
  induction ins generalizing ds with
  | nil => rfl
  | cons i rest ih => simp [DataSource.runLoop, ih]

theorem loopIter_running_generates (ds : DataSource) (inp : IterInput)
    (h : ds.running = true) :
    (ds.loopIter inp).generated.isSome = true := by
  simp [DataSource.loopIter, h]

theorem startClient_single_live (m : MqttManager) (w : MqttWorld)
    (c : Bool) (hw : w.live = m.client.toList) :
    (m.startClient w false c).2.live
      = (m.startClient w false c).1.client.toList := by
  unfold MqttManager.startClient MqttManager.stopClient
  rcases hc : m.client with _ | i
  · simp only [hc] at hw
    simp [hc, hw]
    split
    · split <;> simp [hw]
    · simp [hw]
  · simp only [hc, Option.toList] at hw
    simp [hc, hw]
    split
    · split <;> simp [hw]
    · simp [hw]

theorem den_100_round2 (q : ℚ) : (100 * round2 q).den = 1 := by
  unfold round2
  rw [mul_comm, div_mul_cancel₀ _ (by norm_num : (100:ℚ) ≠ 0)]
  exact Rat.den_intCast _

/-- A config-change listener that mutates the dict it receives in
place, assigning `k := v` through the reference handed to it. -/
def mutListener (k : String) (v : Value) : Heap → Nat → Heap :=
  fun hh r => hh.write r (dictSet (hh.read r) k v)

/-! ### The claims -/

/-- C1: for every reading produced by a DataSource whose interval
bounds are valid (lower ≤ upper, both ≥ 0), the voltage field lies in
[210, 240], the current field lies in [0.1, 10.0], each is rounded to
two decimal places (one hundred times it is an integer), and the power
field equals round(voltage × current, 2) computed from those same
rounded fields. -/
theorem C1_reading_ranges_and_power (ds : DataSource) (uv ui : ℚ)
    (now : String)
    (_hb0 : 0 ≤ ds.interval_lower_bound)
    (_hb1 : ds.interval_lower_bound ≤ ds.interval_upper_bound)
    (h0 : 0 ≤ uv) (h1 : uv ≤ 1) (h2 : 0 ≤ ui) (h3 : ui ≤ 1) :
    210 ≤ (ds.generate_readings uv ui now).voltage
    ∧ (ds.generate_readings uv ui now).voltage ≤ 240
    ∧ 1/10 ≤ (ds.generate_readings uv ui now).current
    ∧ (ds.generate_readings uv ui now).current ≤ 10
    ∧ (100 * (ds.generate_readings uv ui now).voltage).den = 1
    ∧ (100 * (ds.generate_readings uv ui now).current).den = 1
    ∧ (ds.generate_readings uv ui now).power
        = round2 ((ds.generate_readings uv ui now).voltage
            * (ds.generate_readings uv ui now).current) := by
  have hv : (ds.generate_readings uv ui now).voltage
      = round2 (uniform 210 240 uv) := rfl
  have hcu : (ds.generate_readings uv ui now).current
      = round2 (uniform (1/10) 10 ui) := rfl
  have hvl : (210:ℚ) ≤ round2 (uniform 210 240 uv) := by
    have h := le_round2 (uniform 210 240 uv) 21000
      (by unfold uniform; push_cast; nlinarith)
    push_cast at h
    linarith
  have hvu : round2 (uniform 210 240 uv) ≤ (240:ℚ) := by
    have h := round2_le (uniform 210 240 uv) 24000
      (by unfold uniform; push_cast; nlinarith)
    push_cast at h
    linarith
  have hcl : (1:ℚ)/10 ≤ round2 (uniform (1/10) 10 ui) := by
    have h := le_round2 (uniform (1/10) 10 ui) 10
      (by unfold uniform; push_cast; nlinarith)
    push_cast at h
    linarith
  have hcuu : round2 (uniform (1/10) 10 ui) ≤ (10:ℚ) := by
    have h := round2_le (uniform (1/10) 10 ui) 1000
      (by unfold uniform; push_cast; nlinarith)
    push_cast at h
    linarith
  refine ⟨?_, ?_, ?_, ?_, ?_, ?_, ?_⟩
  · rw [hv]; exact hvl
  · rw [hv]; exact hvu
  · rw [hcu]; exact hcl
  · rw [hcu]; exact hcuu
  · rw [hv]; exact den_100_round2 _
  · rw [hcu]; exact den_100_round2 _
  · rfl

theorem C1_reading_ranges_and_power_witness :
    (0:ℚ) ≤ (DataSource.init "Load" 2 5 true
      "127.0.0.1").interval_lower_bound
    ∧ (DataSource.init "Load" 2 5 true "127.0.0.1").interval_lower_bound
        ≤ (DataSource.init "Load" 2 5 true
          "127.0.0.1").interval_upper_bound
    ∧ (0:ℚ) ≤ 1/2 ∧ (1:ℚ)/2 ≤ 1
    ∧ (210 ≤ ((DataSource.init "Load" 2 5 true
          "127.0.0.1").generate_readings (1/2) (1/2) "t").voltage
        ∧ ((DataSource.init "Load" 2 5 true
          "127.0.0.1").generate_readings (1/2) (1/2) "t").voltage ≤ 240
        ∧ 1/10 ≤ ((DataSource.init "Load" 2 5 true
          "127.0.0.1").generate_readings (1/2) (1/2) "t").current
        ∧ ((DataSource.init "Load" 2 5 true
          "127.0.0.1").generate_readings (1/2) (1/2) "t").current ≤ 10
        ∧ (100 * ((DataSource.init "Load" 2 5 true
          "127.0.0.1").generate_readings (1/2) (1/2) "t").voltage).den = 1
        ∧ (100 * ((DataSource.init "Load" 2 5 true
          "127.0.0.1").generate_readings (1/2) (1/2) "t").current).den = 1
        ∧ ((DataSource.init "Load" 2 5 true
          "127.0.0.1").generate_readings (1/2) (1/2) "t").power
            = round2 (((DataSource.init "Load" 2 5 true
                "127.0.0.1").generate_readings (1/2) (1/2) "t").voltage
              * ((DataSource.init "Load" 2 5 true
                "127.0.0.1").generate_readings (1/2) (1/2) "t").current)) :=
  ⟨by decide, by decide, by norm_num, by norm_num,
    C1_reading_ranges_and_power (DataSource.init "Load" 2 5 true
      "127.0.0.1") (1/2) (1/2) "t" (by decide) (by decide) (by norm_num)
      (by norm_num) (by norm_num) (by norm_num)⟩

/-- C2 counterexample: the claim says a mutation performed by a change
listener on the mapping it receives leaves the internal configuration
unchanged; but update hands listeners the internal dict itself, so a
listener writing key a through the received reference changes the
internal cell from a = 1 to a = 99. -/
theorem C2_counterexample :
    (ConfigManager.update ⟨0⟩ ⟨[[("a", Value.num 1)]]⟩ []
        [mutListener "a" (Value.num 99)]).read 0
      = [("a", Value.num 99)]
    ∧ Heap.read ⟨[[("a", Value.num 1)]]⟩ 0 = [("a", Value.num 1)] := by
  constructor
  · rfl
  · rfl

/-- C2 amended: all() hands out a snapshot — the returned reference is
fresh, holds equal contents, and mutating it leaves the internal
configuration unchanged — but update() invokes listeners with the
internal mapping itself, so an in-place assignment performed by a
listener on the mapping it receives lands directly in the internal
configuration state. -/
theorem C2_all_snapshot_update_alias (cm : ConfigManager) (h : Heap)
    (d u : Dict) (k : String) (v : Value)
    (hr : cm.configRef < h.cells.length) :
    cm.configRef < (cm.all h).2
    ∧ (cm.all h).1.read (cm.all h).2 = h.read cm.configRef
    ∧ ((cm.all h).1.write (cm.all h).2 d).read cm.configRef
        = h.read cm.configRef
    ∧ (cm.update h u [mutListener k v]).read cm.configRef
        = dictSet (dictUpdate (h.read cm.configRef) u) k v := by
  have hfresh : (cm.all h).2 = h.cells.length := rfl
  refine ⟨?_, ?_, ?_, ?_⟩
  · rw [hfresh]; exact hr
  · exact Heap.read_alloc_new h _
  · rw [Heap.read_write_other _ _ _ _ (by rw [hfresh]; exact hr.ne')]
    exact Heap.read_alloc_old h _ _ hr
  · have hlen : cm.configRef <
        ((h.write cm.configRef (dictUpdate (h.read cm.configRef) u)).cells.length) := by
      rw [Heap.length_write]; exact hr
    unfold ConfigManager.update mutListener
    simp only [List.foldl]
    rw [Heap.read_write_same _ _ _ hlen, Heap.read_write_same _ _ _ hr]

theorem C2_all_snapshot_update_alias_witness :
    ((0:Nat) < (⟨[[("a", Value.num 1)]]⟩ : Heap).cells.length)
    ∧ ((⟨0⟩ : ConfigManager).configRef
        < ((⟨0⟩ : ConfigManager).all ⟨[[("a", Value.num 1)]]⟩).2
      ∧ ((⟨0⟩ : ConfigManager).all ⟨[[("a", Value.num 1)]]⟩).1.read
          ((⟨0⟩ : ConfigManager).all ⟨[[("a", Value.num 1)]]⟩).2
        = Heap.read ⟨[[("a", Value.num 1)]]⟩ 0
      ∧ (((⟨0⟩ : ConfigManager).all ⟨[[("a", Value.num 1)]]⟩).1.write
          ((⟨0⟩ : ConfigManager).all ⟨[[("a", Value.num 1)]]⟩).2 []).read 0
        = Heap.read ⟨[[("a", Value.num 1)]]⟩ 0
      ∧ (ConfigManager.update ⟨0⟩ ⟨[[("a", Value.num 1)]]⟩ []
          [mutListener "b" (Value.num 2)]).read 0
        = dictSet (dictUpdate (Heap.read ⟨[[("a", Value.num 1)]]⟩ 0) [])
            "b" (Value.num 2)) :=
  ⟨by decide,
    C2_all_snapshot_update_alias ⟨0⟩ ⟨[[("a", Value.num 1)]]⟩ [] []
      "b" (Value.num 2) (by decide)⟩

/-- C3: update followed by get returns the written value, and update
merges rather than replaces — every key without a binding in the
partial update keeps exactly its prior value. -/
theorem C3_update_get_merge (cm : ConfigManager) (h : Heap)
    (k k2 : String) (v d1 d2 : Value) (u : Dict)
    (hr : cm.configRef < h.cells.length)
    (hk2 : dictHasKey u k2 = false) :
    ConfigManager.get cm (cm.update h [(k, v)] []) k d1 = v
    ∧ ConfigManager.get cm (cm.update h u []) k2 d2
        = ConfigManager.get cm h k2 d2 := by
  constructor
  · unfold ConfigManager.get ConfigManager.update
    simp only [List.foldl]
    rw [Heap.read_write_same _ _ _ hr, dictGet_dictUpdate_singleton]
    rfl
  · unfold ConfigManager.get ConfigManager.update
    simp only [List.foldl]
    rw [Heap.read_write_same _ _ _ hr, dictGet_dictUpdate_not_mem _ _ _ hk2]

theorem C3_update_get_merge_witness :
    ((0:Nat) < (⟨[[("x", Value.num 1)]]⟩ : Heap).cells.length)
    ∧ dictHasKey [("k", Value.num 7)] "x" = false
    ∧ (ConfigManager.get ⟨0⟩ (ConfigManager.update ⟨0⟩
          ⟨[[("x", Value.num 1)]]⟩ [("k", Value.num 7)] []) "k" Value.null
        = Value.num 7
      ∧ ConfigManager.get ⟨0⟩ (ConfigManager.update ⟨0⟩
          ⟨[[("x", Value.num 1)]]⟩ [("k", Value.num 7)] []) "x" Value.null
        = ConfigManager.get ⟨0⟩ ⟨[[("x", Value.num 1)]]⟩ "x" Value.null) :=
  ⟨by decide, by decide,
    C3_update_get_merge ⟨0⟩ ⟨[[("x", Value.num 1)]]⟩ "k" "x"
      (Value.num 7) Value.null Value.null [("k", Value.num 7)]
      (by decide) (by decide)⟩

/-- C4: after pause and until a resume, no iteration of the generation
loop generates or delivers a reading, while the loop keeps iterating —
it completes every cycle (each with its sleep) and its state is never
changed by running paused; after resume the very next iteration
produces a reading again, with no thread restart. -/
theorem C4_pause_skips_resume_restarts (ds : DataSource)
    (ins : List IterInput) (i : IterInput) :
    ((ds.pause).runLoop ins).2.all
        (fun o => o.generated == none && o.delivered == none) = true
    ∧ ((ds.pause).runLoop ins).2.length = ins.length
    ∧ ((ds.pause).runLoop ins).1 = ds.pause
    ∧ ((ds.resume).loopIter i).generated.isSome = true := by
  have hp := runLoop_paused (ds.pause) ins (by simp [DataSource.pause])
  exact ⟨hp.2.1, hp.2.2, hp.1,
    loopIter_running_generates _ _ (by simp [DataSource.resume])⟩

/-- C5 counterexample: the claim says startClient twice in a row never
leaves two live connections, in all cases including teardown failures.
But stopClient catches teardown errors, so a failing teardown leaves
the old connection live while the handle is cleared, and the new
client then connects beside it: starting from a fresh manager, a
successful startClient followed by one whose teardown fails ends with
the two connections 1 and 0 both live. -/
theorem C5_counterexample :
    (((⟨[("mqtt_host", Value.str "broker")], none⟩
          : MqttManager).startClient ⟨[], 0⟩ false true).1.startClient
        ((⟨[("mqtt_host", Value.str "broker")], none⟩
          : MqttManager).startClient ⟨[], 0⟩ false true).2
        true true).2.live = [1, 0]
    ∧ (((⟨[("mqtt_host", Value.str "broker")], none⟩
          : MqttManager).startClient ⟨[], 0⟩ false true).1.startClient
        ((⟨[("mqtt_host", Value.str "broker")], none⟩
          : MqttManager).startClient ⟨[], 0⟩ false true).2
        true true).2.live.length = 2 := by
  exact ⟨rfl, rfl⟩

/-- C5 amended: startClient first performs stopClient, so whenever the
teardown of the previous client succeeds, after a startClient call
exactly the current handle (if any) is live — in particular a second
startClient in a row also leaves at most one live connection;
stopClient with no active client changes nothing and raises no error;
and stopClient always leaves the handle null, teardown failures
included. -/
theorem C5_single_client_stop_idempotent (m : MqttManager)
    (w : MqttWorld) (tf c c2 : Bool)
    (hw : w.live = m.client.toList) :
    (m.startClient w false c).2.live
      = (m.startClient w false c).1.client.toList
    ∧ (m.startClient w false c).2.live.length ≤ 1
    ∧ ((m.startClient w false c).1.startClient
        (m.startClient w false c).2 false c2).2.live.length ≤ 1
    ∧ MqttManager.stopClient { config := m.config, client := none } w tf
        = ({ config := m.config, client := none }, w)
    ∧ (m.stopClient w tf).1.client = none := by
  have h1 := startClient_single_live m w c hw
  have h2 := startClient_single_live (m.startClient w false c).1
    (m.startClient w false c).2 c2 h1
  refine ⟨h1, ?_, ?_, ?_, ?_⟩
  · rw [h1]; cases (m.startClient w false c).1.client <;> simp
  · rw [h2]
    cases ((m.startClient w false c).1.startClient
      (m.startClient w false c).2 false c2).1.client <;> simp
  · unfold MqttManager.stopClient; rfl
  · unfold MqttManager.stopClient; rfl

theorem C5_single_client_stop_idempotent_witness :
    ((⟨[7], 8⟩ : MqttWorld).live
        = (⟨[("mqtt_host", Value.str "broker")], some 7⟩
          : MqttManager).client.toList)
    ∧ (((⟨[("mqtt_host", Value.str "broker")], some 7⟩
          : MqttManager).startClient ⟨[7], 8⟩ false true).2.live
        = ((⟨[("mqtt_host", Value.str "broker")], some 7⟩
          : MqttManager).startClient ⟨[7], 8⟩ false true).1.client.toList
      ∧ ((⟨[("mqtt_host", Value.str "broker")], some 7⟩
          : MqttManager).startClient ⟨[7], 8⟩ false true).2.live.length ≤ 1
      ∧ (((⟨[("mqtt_host", Value.str "broker")], some 7⟩
            : MqttManager).startClient ⟨[7], 8⟩ false true).1.startClient
          ((⟨[("mqtt_host", Value.str "broker")], some 7⟩
            : MqttManager).startClient ⟨[7], 8⟩ false true).2
          false false).2.live.length ≤ 1
      ∧ MqttManager.stopClient
          { config := [("mqtt_host", Value.str "broker")], client := none }
          ⟨[7], 8⟩ true
        = ({ config := [("mqtt_host", Value.str "broker")],
              client := none }, ⟨[7], 8⟩)
      ∧ ((⟨[("mqtt_host", Value.str "broker")], some 7⟩
          : MqttManager).stopClient ⟨[7], 8⟩ true).1.client = none) :=
  ⟨by decide,
    C5_single_client_stop_idempotent
      ⟨[("mqtt_host", Value.str "broker")], some 7⟩ ⟨[7], 8⟩
      true true false (by decide)⟩

/-- C6: safePublish makes no transport call when the configured
publish flag is not truthy, and none when no live connection exists
(handle null or not connected); when it publishes a dict payload the
bytes are the JSON serialization of the dict sent to the fixed topic;
and no serialization or send failure ever raises to the caller. -/
theorem C6_safePublish_guards (m : MqttManager) (w : MqttWorld)
    (p : Payload) (d : Dict) (ef sf : Bool) :
    (pyTruthy ((dictGet m.config "mqtt_publish_enabled").getD
        (Value.bool false)) = false →
      (m.safePublish w p ef sf).calls = [])
    ∧ (m.isConnected w = false → (m.safePublish w p ef sf).calls = [])
    ∧ (pyTruthy ((dictGet m.config "mqtt_publish_enabled").getD
        (Value.bool false)) = true → m.isConnected w = true →
        ef = false →
      (m.safePublish w (Payload.dict d) ef sf).calls
        = [(PUB_TOPIC, jsonEncodeDict d)])
    ∧ (m.safePublish w p ef sf).raised = false := by
  refine ⟨?_, ?_, ?_, ?_⟩
  · intro h
    simp [MqttManager.safePublish, h]
  · intro h
    rcases hc : m.client with _ | i
    · simp [MqttManager.safePublish, hc]
    · have hlive : isConnectedClient w i = false := by
        unfold MqttManager.isConnected at h
        rw [hc] at h
        exact h
      simp [MqttManager.safePublish, hc, hlive]
  · intro he hcon hef
    rcases hc : m.client with _ | i
    · unfold MqttManager.isConnected at hcon
      rw [hc] at hcon
      exact absurd hcon (by simp)
    · have hlive : isConnectedClient w i = true := by
        unfold MqttManager.isConnected at hcon
        rw [hc] at hcon
        exact hcon
      simp [MqttManager.safePublish, hc, hlive, he, hef]
  · rcases hc : m.client with _ | i
    · simp [MqttManager.safePublish, hc]
    · simp only [MqttManager.safePublish, hc]
      split
      · split
        · split <;> rfl
        · rfl
      · rfl

theorem C6_safePublish_guards_witness :
    pyTruthy ((dictGet ([("mqtt_publish_enabled", Value.bool true)]
        : Dict) "mqtt_publish_enabled").getD (Value.bool false)) = true
    ∧ (⟨[("mqtt_publish_enabled", Value.bool true)], some 0⟩
        : MqttManager).isConnected ⟨[0], 1⟩ = true
    ∧ ((⟨[("mqtt_publish_enabled", Value.bool true)], some 0⟩
        : MqttManager).safePublish ⟨[0], 1⟩
        (Payload.dict [("voltage", Value.num 230)]) false false).calls
      = [(PUB_TOPIC, jsonEncodeDict [("voltage", Value.num 230)])]
    ∧ ((⟨[("mqtt_publish_enabled", Value.bool true)], some 0⟩
        : MqttManager).safePublish ⟨[0], 1⟩
        (Payload.dict [("voltage", Value.num 230)]) false false).raised
      = false :=
  ⟨by decide, by decide,
    (C6_safePublish_guards ⟨[("mqtt_publish_enabled", Value.bool true)],
      some 0⟩ ⟨[0], 1⟩ (Payload.dict [("voltage", Value.num 230)])
      [("voltage", Value.num 230)] false false).2.2.1
      (by decide) (by decide) rfl,
    (C6_safePublish_guards ⟨[("mqtt_publish_enabled", Value.bool true)],
      some 0⟩ ⟨[0], 1⟩ (Payload.dict [("voltage", Value.num 230)])
      [("voltage", Value.num 230)] false false).2.2.2⟩

/-- C7: a control action whose upper-cased form is neither PAUSE nor
RESUME is only logged: both sources keep their state, nothing is
broadcast, and nothing is raised. -/
theorem C7_unknown_action_noop (a : String) (c g : DataSource)
    (src : String) (h1 : pyUpper a ≠ "PAUSE")
    (h2 : pyUpper a ≠ "RESUME") :
    apply_action a c g src = (c, g, []) := by
  unfold apply_action
  simp [h1, h2]

theorem C7_unknown_action_noop_witness :
    pyUpper "stop" ≠ "PAUSE" ∧ pyUpper "stop" ≠ "RESUME"
    ∧ apply_action "stop" (DataSource.init "Load" 2 5 true "127.0.0.1")
        (DataSource.init "Generator" 2 5 true "127.0.0.1") "UI"
      = (DataSource.init "Load" 2 5 true "127.0.0.1",
          DataSource.init "Generator" 2 5 true "127.0.0.1", []) :=
  ⟨by decide, by decide,
    C7_unknown_action_noop "stop" _ _ "UI" (by decide) (by decide)⟩

/-- C8 counterexample: the claim says every public MqttManager
operation acquires the shared lock, but the safePublish and
isConnected bodies contain no lock acquisition at all. -/
theorem C8_counterexample :
    safePublishLockTrace.contains LockEvent.acquire = false
    ∧ isConnectedLockTrace.contains LockEvent.acquire = false := by
  exact ⟨rfl, rfl⟩

/-- C8 amended: startClient and stopClient run their bodies under the
shared exclusive lock, but safePublish and isConnected touch the
client handle without acquiring it. -/
theorem C8_lock_discipline :
    startClientLockTrace.contains LockEvent.acquire = true
    ∧ stopClientLockTrace.contains LockEvent.acquire = true
    ∧ safePublishLockTrace = []
    ∧ isConnectedLockTrace = [] := by
  exact ⟨rfl, rfl, rfl, rfl⟩

/-- C9: for every pair of interval bounds, including states with
lower > upper at the moment of sampling, the sleep-duration sample is
total — it is the defined value lower + (upper − lower) · u, it lies
between the two bounds in either order, and the loop completes the
iteration and proceeds to the next one. -/
theorem C9_sleep_sampling_total (ds : DataSource) (inp : IterInput)
    (rest : List IterInput) (h0 : 0 ≤ inp.us) (h1 : inp.us ≤ 1) :
    uniform ds.interval_lower_bound ds.interval_upper_bound inp.us
      = ds.interval_lower_bound
        + (ds.interval_upper_bound - ds.interval_lower_bound) * inp.us
    ∧ min ds.interval_lower_bound ds.interval_upper_bound
        ≤ uniform ds.interval_lower_bound ds.interval_upper_bound inp.us
    ∧ uniform ds.interval_lower_bound ds.interval_upper_bound inp.us
        ≤ max ds.interval_lower_bound ds.interval_upper_bound
    ∧ (ds.runLoop (inp :: rest)).2.length = rest.length + 1 := by
  refine ⟨rfl, ?_, ?_, ?_⟩
  · rcases le_total ds.interval_lower_bound ds.interval_upper_bound
      with hle | hle
    · rw [min_eq_left hle]
      unfold uniform
      nlinarith [mul_nonneg (sub_nonneg.mpr hle) h0]
    · rw [min_eq_right hle]
      unfold uniform
      nlinarith [mul_nonneg (sub_nonneg.mpr hle) (sub_nonneg.mpr h1)]
  · rcases le_total ds.interval_lower_bound ds.interval_upper_bound
      with hle | hle
    · rw [max_eq_right hle]
      unfold uniform
      nlinarith [mul_nonneg (sub_nonneg.mpr hle) (sub_nonneg.mpr h1)]
    · rw [max_eq_left hle]
      unfold uniform
      nlinarith [mul_nonneg (sub_nonneg.mpr hle) h0]
  · have h := runLoop_length ds (inp :: rest)
    simpa using h

theorem C9_sleep_sampling_total_witness :
    (0:ℚ) ≤ (⟨0, 0, 1/2, "t", false⟩ : IterInput).us
    ∧ (⟨0, 0, 1/2, "t", false⟩ : IterInput).us ≤ 1
    ∧ (uniform (DataSource.init "Load" 5 2 true
          "127.0.0.1").interval_lower_bound
        (DataSource.init "Load" 5 2 true
          "127.0.0.1").interval_upper_bound
        (⟨0, 0, 1/2, "t", false⟩ : IterInput).us
      = (DataSource.init "Load" 5 2 true
          "127.0.0.1").interval_lower_bound
        + ((DataSource.init "Load" 5 2 true
            "127.0.0.1").interval_upper_bound
          - (DataSource.init "Load" 5 2 true
            "127.0.0.1").interval_lower_bound)
          * (⟨0, 0, 1/2, "t", false⟩ : IterInput).us
      ∧ min (DataSource.init "Load" 5 2 true
            "127.0.0.1").interval_lower_bound
          (DataSource.init "Load" 5 2 true
            "127.0.0.1").interval_upper_bound
        ≤ uniform (DataSource.init "Load" 5 2 true
            "127.0.0.1").interval_lower_bound
          (DataSource.init "Load" 5 2 true
            "127.0.0.1").interval_upper_bound
          (⟨0, 0, 1/2, "t", false⟩ : IterInput).us
      ∧ uniform (DataSource.init "Load" 5 2 true
            "127.0.0.1").interval_lower_bound
          (DataSource.init "Load" 5 2 true
            "127.0.0.1").interval_upper_bound
          (⟨0, 0, 1/2, "t", false⟩ : IterInput).us
        ≤ max (DataSource.init "Load" 5 2 true
            "127.0.0.1").interval_lower_bound
          (DataSource.init "Load" 5 2 true
            "127.0.0.1").interval_upper_bound
      ∧ ((DataSource.init "Load" 5 2 true "127.0.0.1").runLoop
          ((⟨0, 0, 1/2, "t", false⟩ : IterInput) :: [])).2.length
        = List.length ([] : List IterInput) + 1) :=
  ⟨by norm_num, by norm_num,
    C9_sleep_sampling_total (DataSource.init "Load" 5 2 true "127.0.0.1")
      ⟨0, 0, 1/2, "t", false⟩ [] (by norm_num) (by norm_num)⟩

/-- C10: stop has exactly the same effect on the source state as
pause — it only clears the running flag, the loop keeps iterating and
is not terminated — and a resume after stop makes the very next
iteration produce a reading again. -/
theorem C10_stop_equals_pause (ds : DataSource) (ins : List IterInput)
    (i : IterInput) :
    ds.stop = ds.pause
    ∧ ((ds.stop).runLoop ins).1 = ds.stop
    ∧ ((ds.stop).runLoop ins).2.length = ins.length
    ∧ (((ds.stop).resume).loopIter i).generated.isSome = true := by
  have hp := runLoop_paused (ds.stop) ins (by simp [DataSource.stop])
  exact ⟨rfl, hp.1, hp.2.2,
    loopIter_running_generates _ _ (by simp [DataSource.resume])⟩

end EnergyMeter
